import Mathlib

/-!
Shallow embedding of the forecasting engine in `src/AI.py` (a crypto price
predictor built on a min-max scaler, a sliding-window data preparation step,
four neural model architectures, an autoregressive multi-step predictor, an
evaluator, and a file-keyed artifact store).

Numeric values are modelled as rationals (`ℚ`); the neural network itself is
an external black box and is modelled as an abstract function from a window
(a list of scaled values, single channel) to one scaled prediction.
-/

/-- Embeds `sklearn.preprocessing.MinMaxScaler` with `feature_range=(0, 1)`
restricted to a single channel, in its fitted state: sklearn stores
`scale_ = (1 - 0) / handle_zeros(data_max_ - data_min_)` (a zero range is
replaced by 1) and `min_ = 0 - data_min_ * scale_`. -/
structure MinMaxScaler where
  scale_ : ℚ
  min_ : ℚ
deriving DecidableEq, Repr

/-- `MinMaxScaler.fit` on a non-empty single-channel series: remember the
channel minimum and maximum; `scale_` is `1 / (max - min)` with a zero
range replaced by `1`, and `min_` is `0 - min * scale_`. -/
def fitScaler (data : List ℚ) : MinMaxScaler :=
  let dmin := data.foldr min (data.headD 0)
  let dmax := data.foldr max (data.headD 0)
  let r := dmax - dmin
  let s := if r = 0 then 1 else 1 / r
  ⟨s, 0 - dmin * s⟩

/-- `MinMaxScaler.transform` on one value: `v * scale_ + min_` (the same
linear map for every input, no clamping). -/
def MinMaxScaler.transform (sc : MinMaxScaler) (v : ℚ) : ℚ :=
  v * sc.scale_ + sc.min_

/-- `MinMaxScaler.inverse_transform` on one value: `(v - min_) / scale_`. -/
def MinMaxScaler.inverse_transform (sc : MinMaxScaler) (v : ℚ) : ℚ :=
  (v - sc.min_) / sc.scale_

/-- The window/target construction loop of `prepare_data` (AI.py lines
231-236): `for i in range(window, len(scaled)): x.append(scaled[i-window:i]);
y.append(scaled[i])`.  Writing `j = i - window`, the loop index `j` ranges
over `0 .. len - window - 1`, window `j` is the slice
`scaled[j : j + window]` and target `j` is `scaled[j + window]`. -/
def make_xy (scaled : List ℚ) (window : ℕ) : List (List ℚ) × List ℚ :=
  ((List.range (scaled.length - window)).map (fun j => (scaled.drop j).take window),
   (List.range (scaled.length - window)).map (fun j => scaled.getD (j + window) 0))

/-- `prepare_data(data, window=60, scaler=None)` (AI.py lines 222-240): if no
scaler is given, fit a fresh `MinMaxScaler` on `data` and scale with it,
otherwise scale with the given scaler unchanged; then build the window/target
pairs.  The only failure path (the `except` branch returning `None`) is a
scaler fit/transform on an empty array, which `sklearn` rejects; for any
non-empty series the function returns normally, with zero pairs whenever
`len(data) <= window`. -/
def prepare_data (data : List ℚ) (window : ℕ) (scaler : Option MinMaxScaler) :
    Option (List (List ℚ) × List ℚ × MinMaxScaler) :=
  if data = [] then none
  else
    match scaler with
    | none =>
        let sc := fitScaler data
        let scaled := data.map sc.transform
        some ((make_xy scaled window).1, (make_xy scaled window).2, sc)
    | some sc =>
        let scaled := data.map sc.transform
        some ((make_xy scaled window).1, (make_xy scaled window).2, sc)

/-- One layer of a Keras `Sequential` model, as declared in `build_model`
(AI.py lines 242-290).  Only the parameters the source passes explicitly are
recorded; `Dense` carries its optional activation (`None` by default). -/
inductive Layer where
  | input (shape : List ℕ)
  | lstm (units : ℕ) (returnSequences : Bool)
  | gru (units : ℕ) (returnSequences : Bool)
  | dense (units : ℕ) (activation : Option String)
  | dropout (rate : ℚ)
  | reshape (shape : List ℕ)
  | conv1d (filters : ℕ) (kernelSize : ℕ) (activation : String) (padding : String)
  | maxPooling1d (poolSize : ℕ)
deriving DecidableEq, Repr

/-- A built (untrained) model: its layer stack together with the compile
arguments `model.compile(optimizer=Adam(learning_rate), loss, metrics)`. -/
structure ModelSpec where
  layers : List Layer
  optimizer : String
  learning_rate : ℚ
  loss : String
  metrics : List String
deriving DecidableEq, Repr

/-- `build_model(model_type, input_shape, neurons=50, dropout=0.2,
learning_rate=0.001)` (AI.py lines 242-290): an if/elif chain over the four
architecture tags; any other tag raises `ValueError("Unknown model type: ...")`
(caught by the surrounding handler, so the caller receives no model).  The
MLP branch uses only `input_shape[0]` (`Input(shape=(input_shape[0],))`); the
CNN-LSTM branch starts with `Reshape((input_shape[0], input_shape[1]))`. -/
def build_model (model_type : String) (input_shape : List ℕ) (neurons : ℕ)
    (dropout : ℚ) (learning_rate : ℚ) : Except String ModelSpec :=
  if model_type = "LSTM" then
    Except.ok ⟨[Layer.input input_shape,
      Layer.lstm neurons true, Layer.dropout dropout,
      Layer.lstm neurons false, Layer.dropout dropout,
      Layer.dense 1 none],
      "Adam", learning_rate, "mean_squared_error", ["mae"]⟩
  else if model_type = "GRU" then
    Except.ok ⟨[Layer.input input_shape,
      Layer.gru neurons true, Layer.dropout dropout,
      Layer.gru neurons false, Layer.dropout dropout,
      Layer.dense 1 none],
      "Adam", learning_rate, "mean_squared_error", ["mae"]⟩
  else if model_type = "MLP" then
    Except.ok ⟨[Layer.input [input_shape.getD 0 0],
      Layer.dense (neurons * 2) (some "relu"), Layer.dropout dropout,
      Layer.dense neurons (some "relu"),
      Layer.dense 1 none],
      "Adam", learning_rate, "mean_squared_error", ["mae"]⟩
  else if model_type = "CNN-LSTM" then
    Except.ok ⟨[Layer.input input_shape,
      Layer.reshape [input_shape.getD 0 0, input_shape.getD 1 0],
      Layer.conv1d 64 3 "relu" "same",
      Layer.maxPooling1d 2,
      Layer.lstm neurons true, Layer.dropout dropout,
      Layer.lstm neurons false, Layer.dropout dropout,
      Layer.dense 1 none],
      "Adam", learning_rate, "mean_squared_error", ["mae"]⟩
  else
    Except.error ("Unknown model type: " ++ model_type)

/-- `np.roll(a, -1)` on a single-channel window (for the flat MLP window and
for the `axis=0` roll of the `(window, 1)` CNN-LSTM window the element
content is the same): shift every element left by one, the first element
wrapping around to the end. -/
def np_roll (l : List ℚ) : List ℚ :=
  l.drop 1 ++ l.take 1

/-- The in-place write `input_seq[-1] = pred_scaled`: replace the last
element of the (non-empty) window. -/
def setLast (l : List ℚ) (v : ℚ) : List ℚ :=
  l.dropLast ++ [v]

/-- One iteration of the loop in `predict_future` (AI.py lines 349-362).  A
trained model is abstracted as a function from the current window to one
scaled prediction (the reshapes `input_seq.reshape(1, -1)` and
`input_seq[np.newaxis, ...]` do not change the element content of the
single-channel window).  The MLP and CNN-LSTM branches slide via
`np.roll(..., -1)` followed by `input_seq[-1] = pred_scaled`; the LSTM/GRU
branch slides via `np.vstack([input_seq[1:], [pred_scaled]])`. -/
def predict_step (model_type : String) (model : List ℚ → ℚ) (input_seq : List ℚ) :
    ℚ × List ℚ :=
  if model_type = "MLP" then
    let pred_scaled := model input_seq
    (pred_scaled, setLast (np_roll input_seq) pred_scaled)
  else if model_type = "CNN-LSTM" then
    let pred_scaled := model input_seq
    (pred_scaled, setLast (np_roll input_seq) pred_scaled)
  else
    let pred_scaled := model input_seq
    (pred_scaled, input_seq.drop 1 ++ [pred_scaled])

/-- The `for _ in range(steps_pred)` loop of `predict_future`: run the step
`steps` times, collecting the raw scaled predictions in order. -/
def predict_loop (model_type : String) (model : List ℚ → ℚ) :
    ℕ → List ℚ → List ℚ
  | 0, _ => []
  | n + 1, input_seq =>
      let s := predict_step model_type model input_seq
      s.1 :: predict_loop model_type model n s.2

/-- `predict_future(model, last_seq, steps_pred, model_type, scaler)` (AI.py
lines 343-366): copy the seed window, run the autoregressive loop, then apply
`scaler.inverse_transform` once to the whole collected sequence of scaled
predictions and return the resulting price list. -/
def predict_future (model_type : String) (model : List ℚ → ℚ) (last_seq : List ℚ)
    (steps_pred : ℕ) (scaler : MinMaxScaler) : List ℚ :=
  (predict_loop model_type model steps_pred last_seq).map scaler.inverse_transform

/-- One ring-buffer slide of the rolling window: drop the oldest element and
append the model's prediction on the current window as the newest element. -/
def rollWindow (model : List ℚ → ℚ) (w : List ℚ) : List ℚ :=
  w.drop 1 ++ [model w]

/-- The specification-shaped autoregressive rollout: the sequence of raw
scaled predictions in which step `k + 1` is the model applied to the window
obtained by sliding in the step-`k` prediction. -/
def scaledRollout (model : List ℚ → ℚ) : List ℚ → ℕ → List ℚ
  | _, 0 => []
  | w, n + 1 => model w :: scaledRollout model (rollWindow model w) n

/-- The metric computations of `evaluate_model` (AI.py lines 373-385), in the
scaled domain: `mse = mean_squared_error(y, preds)`, `mae = np.mean(np.abs(y -
preds))`, with `preds = model.predict(x)` (the MLP reshape
`x.reshape(x.shape[0], -1)` leaves the single-channel window content
unchanged).  `sklearn.metrics.mean_squared_error` and `np.mean` reject an
empty or length-mismatched input, which the surrounding handler turns into a
`None` result. -/
def evaluate_core (model : List ℚ → ℚ) (x : List (List ℚ)) (y : List ℚ) :
    Option (ℚ × ℚ) :=
  if x = [] ∨ y.length ≠ x.length then none
  else
    let preds := x.map model
    let n : ℚ := (y.length : ℚ)
    let mse := ((y.zip preds).map (fun p => (p.1 - p.2) ^ 2)).sum / n
    let mae := ((y.zip preds).map (fun p => |p.1 - p.2|)).sum / n
    some (mse, mae)

/-- `evaluate_model(model, x, y, model_type)`: returns `(mse, rmse, mae)`
with `rmse = np.sqrt(mse)`; the square root lives in `ℝ`. -/
noncomputable def evaluate_model (model : List ℚ → ℚ) (x : List (List ℚ))
    (y : List ℚ) : Option (ℚ × ℝ × ℚ) :=
  (evaluate_core model x y).map (fun p => (p.1, Real.sqrt (p.1 : ℝ), p.2))

/-- The artifact store: the set of model files under `models/` and the scaler
files (with their contents) under `scalers/`, keyed by file name. -/
structure Store where
  models : List String
  scalers : List (String × MinMaxScaler)
deriving DecidableEq

/-- `joblib.load(scaler_path) if os.path.exists(scaler_path) else None`:
look up a scaler file by name. -/
def lookupScaler (store : Store) (path : String) : Option MinMaxScaler :=
  (store.scalers.find? (fun p => p.1 == path)).map (fun p => p.2)

/-- `joblib.dump(scaler, scaler_path)`: create or overwrite the scaler file. -/
def dumpScaler (store : Store) (path : String) (sc : MinMaxScaler) : Store :=
  ⟨store.models, (path, sc) :: store.scalers.filter (fun p => !(p.1 == path))⟩

/-- `model.save(model_path)`: create or overwrite the model file. -/
def saveModel (store : Store) (path : String) : Store :=
  ⟨path :: store.models.filter (fun q => !(q == path)), store.scalers⟩

/-- The input-shape adjustment in `train_model` (AI.py lines 310-317): for
MLP the windows are flattened (`x.reshape(x.shape[0], -1)`, single channel so
the flat length is the window length `w`); for the other tags the shape stays
`(w, 1)`. -/
def train_input_shape (model_type : String) (w : ℕ) : List ℕ :=
  if model_type = "MLP" then [w] else [w, 1]

/-- The successful result of `train_model`: the window set, targets, the
scaler that was used and persisted, and the two artifact paths. -/
structure TrainResult where
  x : List (List ℚ)
  y : List ℚ
  scaler : MinMaxScaler
  model_path : String
  scaler_path : String
deriving DecidableEq

/-- `train_model(coin, model_type, interval, ...)` (AI.py lines 292-341),
with the external effects made explicit: `fetched` is the result of
`fetch_historical_data` (`none` on failure), `fitOk` stands for the
reshape/`model.fit` phase raising no framework exception, and `dumpOk`/
`saveOk` for `joblib.dump`/`model.save` raising no I/O exception.  Any
exception inside the `try` body is caught and the call returns a failure
tuple; the store is mutated only by the `joblib.dump` and `model.save` calls
that actually completed, in that order (the scaler is dumped before the
model is saved). -/
def train_model (store : Store) (coin : String) (model_type : String)
    (interval : String) (neurons : ℕ) (dropout : ℚ) (lr : ℚ)
    (fetched : Option (List ℚ)) (fitOk dumpOk saveOk : Bool) :
    Option TrainResult × Store :=
  match fetched with
  | none => (none, store)
  | some df =>
    if df = [] then (none, store)
    else
      let scaler_path := coin ++ "_" ++ interval ++ "_scaler.save"
      match prepare_data df 60 (lookupScaler store scaler_path) with
      | none => (none, store)
      | some (x, y, scaler) =>
        let w := (x.headD []).length
        match build_model model_type (train_input_shape model_type w) neurons dropout lr with
        | Except.error _ => (none, store)
        | Except.ok _ =>
          if fitOk = false then (none, store)
          else
            let model_path := coin ++ "_" ++ model_type ++ "_" ++ interval ++ ".keras"
            if dumpOk = false then (none, store)
            else
              let store1 := dumpScaler store scaler_path scaler
              if saveOk = false then (none, store1)
              else
                (some ⟨x, y, scaler, model_path, scaler_path⟩, saveModel store1 model_path)

/-- The `delta_map` dictionary of `run_prediction` (AI.py lines 635-641) with
its `.get(interval_code, timedelta(days=1))` default, in seconds: one hour,
one day, one week, thirty days. -/
def delta_map (interval : String) : ℤ :=
  if interval = "1h" then 3600
  else if interval = "1d" then 86400
  else if interval = "1wk" then 604800
  else if interval = "1mo" then 2592000
  else 86400

/-- `future_dates = [last_date + delta * (i + 1) for i in range(steps_pred)]`
(AI.py lines 642-644), timestamps in seconds. -/
def future_dates (last_date : ℤ) (delta : ℤ) (steps_pred : ℕ) : List ℤ :=
  (List.range steps_pred).map (fun (i : ℕ) => last_date + delta * ((i : ℤ) + 1))

/-- The forecast-producing pipeline of `run_prediction` (AI.py lines 574-650)
after the model and scaler have been loaded: check the fetched historical
frame (timestamp/price rows) is non-empty, prepare the data with the loaded
scaler and window 60, take `last_seq = x[-1]` (an `IndexError` on an empty
window set propagates to the outer handler), run `predict_future`, build the
future dates from `last_date = df.index[-1]`, and pair dates with predicted
prices (the `df_future` frame). -/
def run_prediction (model_type : String) (model : List ℚ → ℚ)
    (scaler : MinMaxScaler) (df : List (ℤ × ℚ)) (steps_pred : ℕ)
    (interval : String) : Except String (List (ℤ × ℚ)) :=
  if df = [] then Except.error "Failed to fetch historical data"
  else
    match prepare_data (df.map Prod.snd) 60 (some scaler) with
    | none => Except.error "Failed to prepare data for prediction"
    | some (x, _, _) =>
      match x.getLast? with
      | none => Except.error "IndexError: index -1 is out of bounds"
      | some last_seq =>
        let predicted_prices := predict_future model_type model last_seq steps_pred scaler
        let last_date := (df.map Prod.fst).getLastD 0
        let delta := delta_map interval
        let fd := future_dates last_date delta steps_pred
        Except.ok (fd.zip predicted_prices)

/-- A heap of numpy arrays: the mutable-state view of `predict_future`.
Arrays are heap cells addressed by index; `np.roll` and `np.vstack` allocate
fresh cells, while `input_seq[-1] = v` writes a cell in place. -/
abbrev Heap : Type := List (List ℚ)

/-- Read a heap cell. -/
def hget (h : Heap) (i : ℕ) : List ℚ :=
  List.getD h i []

/-- One loop iteration of `predict_future` on the heap: in the MLP and
CNN-LSTM branches `np.roll` allocates a fresh cell which is then mutated in
place by `input_seq[-1] = pred_scaled`; in the LSTM/GRU branch `np.vstack`
allocates a fresh cell.  Returns the scaled prediction, the new heap and the
index now held by the local variable `input_seq`. -/
def step_heap (model_type : String) (model : List ℚ → ℚ) (h : Heap) (cur : ℕ) :
    ℚ × Heap × ℕ :=
  if model_type = "MLP" ∨ model_type = "CNN-LSTM" then
    let pred_scaled := model (hget h cur)
    let h1 : Heap := h ++ [np_roll (hget h cur)]
    let r := h.length
    let h2 : Heap := h1.set r (setLast (hget h1 r) pred_scaled)
    (pred_scaled, h2, r)
  else
    let pred_scaled := model (hget h cur)
    let h1 : Heap := h ++ [(hget h cur).drop 1 ++ [pred_scaled]]
    (pred_scaled, h1, h.length)

/-- The prediction loop on the heap, collecting the scaled predictions. -/
def loop_heap (model_type : String) (model : List ℚ → ℚ) :
    ℕ → Heap → ℕ → List ℚ × Heap
  | 0, h, _ => ([], h)
  | n + 1, h, cur =>
      let s := step_heap model_type model h cur
      let rest := loop_heap model_type model n s.2.1 s.2.2
      (s.1 :: rest.1, rest.2)

/-- `predict_future` on the heap: `input_seq = last_seq.copy()` allocates a
fresh cell holding a copy of the caller's seed array (cell `seedIdx`), the
loop then works only on that copy and its successors, and the collected
scaled predictions are inverse-transformed in one batch at the end. -/
def predict_future_heap (model_type : String) (model : List ℚ → ℚ) (h : Heap)
    (seedIdx : ℕ) (steps_pred : ℕ) (scaler : MinMaxScaler) : List ℚ × Heap :=
  let h1 : Heap := h ++ [hget h seedIdx]
  let r := loop_heap model_type model steps_pred h1 h.length
  (r.1.map scaler.inverse_transform, r.2)

/-- A simple concrete price series for concrete evaluations: `0, 1, ..., n-1`. -/
def mkData (n : ℕ) : List ℚ :=
  (List.range n).map (fun (i : ℕ) => (i : ℚ))

/-- A concrete historical frame with daily integer timestamps. -/
def mkFrame (n : ℕ) : List (ℤ × ℚ) :=
  (List.range n).map (fun (i : ℕ) => ((i : ℤ), (i : ℚ)))

theorem list_getD_range_map {α : Type} (f : ℕ → α) (n j : ℕ) (h : j < n) (d : α) :
    (((List.range n).map f).getD j d) = f j := by
  simp [List.getD_eq_getElem?_getD, List.getElem?_map, List.getElem?_range h]

theorem prepare_data_some_of_ne_nil (data : List ℚ) (w : ℕ) (sc0 : Option MinMaxScaler)
    (h : data ≠ []) :
    prepare_data data w sc0 =
      some ((make_xy (data.map (sc0.getD (fitScaler data)).transform) w).1,
        (make_xy (data.map (sc0.getD (fitScaler data)).transform) w).2,
        sc0.getD (fitScaler data)) := by
  cases sc0 <;> simp [prepare_data, h]

theorem fitScaler_scale_ne_zero (data : List ℚ) : (fitScaler data).scale_ ≠ 0 := by
  simp only [fitScaler]
  split
  · exact one_ne_zero
  · rename_i hr
    exact one_div_ne_zero hr

theorem scaler_round_trip_of_scale_ne_zero (sc : MinMaxScaler) (v : ℚ)
    (hs : sc.scale_ ≠ 0) : sc.inverse_transform (sc.transform v) = v := by
  unfold MinMaxScaler.transform MinMaxScaler.inverse_transform
  rw [add_sub_cancel_right, mul_div_cancel_right₀ _ hs]

/-- C7: a scaler fitted from a (non-empty) series round-trips every value
exactly -- `inverse_transform (transform v) = v`, hence within the 1e-6
tolerance -- and `transform` is the same unclamped linear map
`v * scale_ + min_` at every input, inside or outside the fit range. -/
theorem scaler_round_trip (data : List ℚ) (v : ℚ) (h : data ≠ []) :
    (fitScaler data).inverse_transform ((fitScaler data).transform v) = v
    ∧ |(fitScaler data).inverse_transform ((fitScaler data).transform v) - v| ≤ 1 / 1000000
    ∧ (fitScaler data).transform v = v * (fitScaler data).scale_ + (fitScaler data).min_ := by
  have hs := fitScaler_scale_ne_zero data
  have hrt := scaler_round_trip_of_scale_ne_zero (fitScaler data) v hs
  refine ⟨hrt, ?_, rfl⟩
  rw [hrt]
  norm_num

theorem scaler_round_trip_witness :
    ([(2 : ℚ), 7, 4] ≠ [] ∧
      (fitScaler [(2 : ℚ), 7, 4]).inverse_transform
          ((fitScaler [(2 : ℚ), 7, 4]).transform 100) = 100) := by
  refine ⟨by decide, (scaler_round_trip [(2 : ℚ), 7, 4] 100 (by decide)).1⟩

/-- C2 (counterexample): on the series `[1, 2, 3]` of length 3 ≤ 60,
`prepare_data` does not fail at all -- no `InsufficientDataError` exists in
the code -- and instead returns the empty-but-valid result of zero
(window, target) pairs together with the freshly fitted scaler. -/
theorem prepare_short_series_cex :
    (prepare_data [(1 : ℚ), 2, 3] 60 none).isSome = true
    ∧ prepare_data [(1 : ℚ), 2, 3] 60 none = some ([], [], fitScaler [(1 : ℚ), 2, 3]) := by
  constructor <;> rfl

/-- C2 (amended): for every non-empty series whose length is at most the
window size, `prepare_data` succeeds and returns zero (window, target) pairs
-- an empty-but-valid result with the fitted scaler -- rather than raising a
typed `InsufficientDataError` (which does not exist in the code); only the
empty series makes it fail (with a generic caught exception, not a typed
error). -/
theorem prepare_short_series_amended (data : List ℚ) (w : ℕ)
    (h1 : data ≠ []) (h2 : data.length ≤ w) :
    prepare_data data w none = some ([], [], fitScaler data) := by
  rw [prepare_data_some_of_ne_nil data w none h1]
  have hz : (data.map ((Option.getD none (fitScaler data)).transform)).length - w = 0 := by
    rw [List.length_map]
    omega
  unfold make_xy
  rw [hz]
  simp

theorem prepare_short_series_amended_witness :
    prepare_data [(5 : ℚ), 9] 60 none = some ([], [], fitScaler [(5 : ℚ), 9]) :=
  prepare_short_series_amended [(5 : ℚ), 9] 60 (by decide) (by decide)

theorem make_xy_fst_getD (scaled : List ℚ) (w j : ℕ) (hj : j < scaled.length - w) :
    ((make_xy scaled w).1.getD j []) = (scaled.drop j).take w := by
  unfold make_xy
  exact list_getD_range_map _ _ _ hj _

theorem make_xy_snd_getD (scaled : List ℚ) (w j : ℕ) (hj : j < scaled.length - w) :
    ((make_xy scaled w).2.getD j 0) = scaled.getD (j + w) 0 := by
  unfold make_xy
  exact list_getD_range_map _ _ _ hj _

theorem take_drop_getD (l : List ℚ) (j w k : ℕ) (hk : k < w) (h : j + k < l.length) :
    ((l.drop j).take w).getD k 0 = l.getD (j + k) 0 := by
  rw [List.getD_eq_getElem?_getD, List.getD_eq_getElem?_getD,
    List.getElem?_take, if_pos hk, List.getElem?_drop]

/-- C3: for a series of length `L > w`, `prepare_data` returns exactly
`L - w` (window, target) pairs in chronological order: window `j` has length
`w` with element `k` equal to scaled point `j + k`, and target `j` is the
scaled point `j + w` immediately following window `j`. -/
theorem prepare_window_law (data : List ℚ) (w : ℕ) (sc0 : Option MinMaxScaler)
    (h : w < data.length) :
    ∃ x y s, prepare_data data w sc0 = some (x, y, s)
    ∧ x.length = data.length - w
    ∧ y.length = data.length - w
    ∧ ∀ j, j < data.length - w →
        (x.getD j []).length = w
        ∧ (∀ k, k < w → (x.getD j []).getD k 0 = (data.map s.transform).getD (j + k) 0)
        ∧ y.getD j 0 = (data.map s.transform).getD (j + w) 0 := by
  have hne : data ≠ [] := by
    intro hcon
    rw [hcon] at h
    exact absurd h (by simp)
  set s := sc0.getD (fitScaler data) with hsdef
  set scaled := data.map s.transform with hscdef
  have hlen : scaled.length = data.length := by
    rw [hscdef, List.length_map]
  refine ⟨(make_xy scaled w).1, (make_xy scaled w).2, s,
    prepare_data_some_of_ne_nil data w sc0 hne, ?_, ?_, ?_⟩
  · unfold make_xy
    simp [hlen]
  · unfold make_xy
    simp [hlen]
  · intro j hj
    have hj' : j < scaled.length - w := by omega
    have hjw : j + w ≤ scaled.length := by omega
    refine ⟨?_, ?_, ?_⟩
    · rw [make_xy_fst_getD scaled w j hj']
      rw [List.length_take, List.length_drop]
      omega
    · intro k hk
      rw [make_xy_fst_getD scaled w j hj']
      exact take_drop_getD scaled j w k hk (by omega)
    · exact make_xy_snd_getD scaled w j hj'

theorem prepare_window_law_witness :
    (2 < ([(10 : ℚ), 20, 30, 40]).length)
    ∧ ∃ x y s, prepare_data [(10 : ℚ), 20, 30, 40] 2 none = some (x, y, s)
        ∧ x.length = ([(10 : ℚ), 20, 30, 40]).length - 2
        ∧ y.length = ([(10 : ℚ), 20, 30, 40]).length - 2
        ∧ ∀ j, j < ([(10 : ℚ), 20, 30, 40]).length - 2 →
            (x.getD j []).length = 2
            ∧ (∀ k, k < 2 → (x.getD j []).getD k 0 =
                (([(10 : ℚ), 20, 30, 40]).map s.transform).getD (j + k) 0)
            ∧ y.getD j 0 = (([(10 : ℚ), 20, 30, 40]).map s.transform).getD (j + 2) 0 :=
  ⟨by decide, prepare_window_law [(10 : ℚ), 20, 30, 40] 2 none (by decide)⟩


/-- C5: `build_model` fails with the "Unknown model type" error for every tag
outside the four defined architectures (never silently defaulting), and for
exactly the four defined tags it succeeds with the documented topology --
MLP: flat input, dense(2n, relu), dropout, dense(n, relu), dense(1);
GRU/LSTM: recurrent(n, sequences), dropout, recurrent(n), dropout, dense(1);
CNN-LSTM: reshape to (window, channel), conv1d(64, 3, same), maxpool(2),
LSTM(n, sequences), dropout, LSTM(n), dropout, dense(1) -- each compiled
with Adam at the given learning rate, MSE loss and MAE metric. -/
theorem build_model_coverage (t : String) (shape : List ℕ) (n : ℕ) (d lr : ℚ)
    (h : t ≠ "MLP" ∧ t ≠ "GRU" ∧ t ≠ "LSTM" ∧ t ≠ "CNN-LSTM") :
    build_model t shape n d lr = Except.error ("Unknown model type: " ++ t)
    ∧ build_model "MLP" shape n d lr = Except.ok ⟨[Layer.input [shape.getD 0 0],
        Layer.dense (n * 2) (some "relu"), Layer.dropout d,
        Layer.dense n (some "relu"), Layer.dense 1 none],
        "Adam", lr, "mean_squared_error", ["mae"]⟩
    ∧ build_model "GRU" shape n d lr = Except.ok ⟨[Layer.input shape,
        Layer.gru n true, Layer.dropout d, Layer.gru n false, Layer.dropout d,
        Layer.dense 1 none], "Adam", lr, "mean_squared_error", ["mae"]⟩
    ∧ build_model "LSTM" shape n d lr = Except.ok ⟨[Layer.input shape,
        Layer.lstm n true, Layer.dropout d, Layer.lstm n false, Layer.dropout d,
        Layer.dense 1 none], "Adam", lr, "mean_squared_error", ["mae"]⟩
    ∧ build_model "CNN-LSTM" shape n d lr = Except.ok ⟨[Layer.input shape,
        Layer.reshape [shape.getD 0 0, shape.getD 1 0],
        Layer.conv1d 64 3 "relu" "same", Layer.maxPooling1d 2,
        Layer.lstm n true, Layer.dropout d, Layer.lstm n false, Layer.dropout d,
        Layer.dense 1 none], "Adam", lr, "mean_squared_error", ["mae"]⟩ := by
  obtain ⟨h1, h2, h3, h4⟩ := h
  refine ⟨?_, rfl, rfl, rfl, rfl⟩
  simp [build_model, h1, h2, h3, h4]

theorem build_model_coverage_witness :
    ("RNN" ≠ "MLP" ∧ "RNN" ≠ "GRU" ∧ "RNN" ≠ "LSTM" ∧ "RNN" ≠ "CNN-LSTM")
    ∧ build_model "RNN" [60, 1] 50 (1 / 5) (1 / 1000) =
        Except.error ("Unknown model type: " ++ "RNN") :=
  ⟨by decide, (build_model_coverage "RNN" [60, 1] 50 (1 / 5) (1 / 1000) (by decide)).1⟩

theorem roll_set_eq (w : List ℚ) (p : ℚ) :
    setLast (np_roll w) p = w.drop 1 ++ [p] := by
  cases w with
  | nil => rfl
  | cons a as => simp [np_roll, setLast, List.dropLast_concat]

theorem predict_step_eq (mt : String) (model : List ℚ → ℚ) (w : List ℚ) :
    predict_step mt model w = (model w, rollWindow model w) := by
  unfold predict_step
  split_ifs <;> simp [roll_set_eq, rollWindow]

theorem predict_loop_eq (mt : String) (model : List ℚ → ℚ) :
    ∀ (n : ℕ) (w : List ℚ), predict_loop mt model n w = scaledRollout model w n := by
  intro n
  induction n with
  | zero => intro w; rfl
  | succ k ih =>
      intro w
      simp only [predict_loop, scaledRollout, predict_step_eq]
      exact congrArg _ (ih _)

theorem scaledRollout_length (model : List ℚ → ℚ) :
    ∀ (n : ℕ) (w : List ℚ), (scaledRollout model w n).length = n := by
  intro n
  induction n with
  | zero => intro w; rfl
  | succ k ih =>
      intro w
      simp only [scaledRollout, List.length_cons, ih]

theorem rollWindow_ne_nil (model : List ℚ → ℚ) (w : List ℚ) :
    rollWindow model w ≠ [] := by
  simp [rollWindow]

theorem rollWindow_length (model : List ℚ → ℚ) (w : List ℚ) (h : w ≠ []) :
    (rollWindow model w).length = w.length := by
  have hp : 0 < w.length := List.length_pos.mpr h
  simp [rollWindow]
  omega

theorem rollWindow_iterate (model : List ℚ → ℚ) (seed : List ℚ) (h : seed ≠ []) :
    ∀ k, ((rollWindow model)^[k] seed) ≠ []
      ∧ ((rollWindow model)^[k] seed).length = seed.length := by
  intro k
  induction k with
  | zero => exact ⟨h, rfl⟩
  | succ m ih =>
      rw [Function.iterate_succ_apply']
      exact ⟨rollWindow_ne_nil model _, by rw [rollWindow_length model _ ih.1, ih.2]⟩

/-- C1: for every architecture tag, abstract trained model, fitted scaler,
non-empty seed window and horizon `H ≥ 1`, `predict_future` equals the
autoregressive rollout -- the sequence whose step `k + 1` applies the model
to the window obtained from step `k` by dropping the oldest element and
appending the step-`k` scaled prediction -- with the scaler's inverse
transform applied once, after the loop, to the whole recorded scaled
sequence; the window length is constant across all slides, and the returned
list has exactly `H` price-unit entries. -/
theorem predict_future_autoregressive (mt : String) (model : List ℚ → ℚ)
    (seed : List ℚ) (H : ℕ) (sc : MinMaxScaler) (hseed : seed ≠ []) (hH : 1 ≤ H) :
    predict_future mt model seed H sc =
      (scaledRollout model seed H).map sc.inverse_transform
    ∧ (predict_future mt model seed H sc).length = H
    ∧ (∀ k, ((rollWindow model)^[k] seed).length = seed.length) := by
  have h1 : predict_future mt model seed H sc =
      (scaledRollout model seed H).map sc.inverse_transform := by
    unfold predict_future
    rw [predict_loop_eq]
  exact ⟨h1, by rw [h1, List.length_map, scaledRollout_length],
    fun k => (rollWindow_iterate model seed hseed k).2⟩

theorem predict_future_autoregressive_witness :
    ([(1 : ℚ) / 2, 1] ≠ [] ∧ 1 ≤ 3
    ∧ predict_future "LSTM" (fun l => l.headD 0) [(1 : ℚ) / 2, 1] 3 ⟨1, 0⟩ =
        (scaledRollout (fun l => l.headD 0) [(1 : ℚ) / 2, 1] 3).map
          (MinMaxScaler.inverse_transform ⟨1, 0⟩)
    ∧ (predict_future "LSTM" (fun l => l.headD 0) [(1 : ℚ) / 2, 1] 3 ⟨1, 0⟩).length = 3) := by
  have h := predict_future_autoregressive "LSTM" (fun l => l.headD 0)
    [(1 : ℚ) / 2, 1] 3 ⟨1, 0⟩ (by decide) (by decide)
  exact ⟨by decide, by decide, h.1, h.2.1⟩

theorem hget_append_lt (h : Heap) (a : List ℚ) (i : ℕ) (hi : i < h.length) :
    hget (h ++ [a]) i = hget h i := by
  unfold hget
  rw [List.getD_eq_getElem?_getD, List.getD_eq_getElem?_getD,
    List.getElem?_append, if_pos hi]

theorem hget_append_length (h : Heap) (a : List ℚ) :
    hget (h ++ [a]) h.length = a := by
  unfold hget
  rw [List.getD_eq_getElem?_getD, List.getElem?_concat_length]
  rfl

theorem hget_set_ne (h : Heap) (i j : ℕ) (a : List ℚ) (hij : i ≠ j) :
    hget (h.set i a) j = hget h j := by
  unfold hget
  rw [List.getD_eq_getElem?_getD, List.getD_eq_getElem?_getD,
    List.getElem?_set_ne hij]

theorem hget_set_self (h : Heap) (i : ℕ) (a : List ℚ) (hi : i < h.length) :
    hget (h.set i a) i = a := by
  unfold hget
  rw [List.getD_eq_getElem?_getD, List.getElem?_set_self hi]
  rfl

theorem step_heap_spec (mt : String) (model : List ℚ → ℚ) (h : Heap) (cur : ℕ) :
    (step_heap mt model h cur).1 = model (hget h cur)
    ∧ hget (step_heap mt model h cur).2.1 (step_heap mt model h cur).2.2 =
        rollWindow model (hget h cur)
    ∧ (step_heap mt model h cur).2.2 < (step_heap mt model h cur).2.1.length
    ∧ h.length ≤ (step_heap mt model h cur).2.2
    ∧ (∀ i, i < h.length → hget (step_heap mt model h cur).2.1 i = hget h i) := by
  unfold step_heap
  split_ifs with hb
  · refine ⟨rfl, ?_, ?_, ?_, ?_⟩
    · show hget ((h ++ [np_roll (hget h cur)]).set h.length
        (setLast (hget (h ++ [np_roll (hget h cur)]) h.length)
          (model (hget h cur)))) h.length = _
      rw [hget_set_self _ _ _ (by simp), hget_append_length]
      rw [roll_set_eq]
      rfl
    · show h.length < ((h ++ [np_roll (hget h cur)]).set h.length _).length
      simp
    · exact le_refl _
    · intro i hi
      show hget ((h ++ [np_roll (hget h cur)]).set h.length _) i = hget h i
      rw [hget_set_ne _ _ _ _ (by omega), hget_append_lt _ _ _ hi]
  · refine ⟨rfl, ?_, ?_, ?_, ?_⟩
    · show hget (h ++ [(hget h cur).drop 1 ++ [model (hget h cur)]]) h.length = _
      rw [hget_append_length]
      rfl
    · show h.length < (h ++ [(hget h cur).drop 1 ++ [model (hget h cur)]]).length
      simp
    · exact le_refl _
    · intro i hi
      exact hget_append_lt _ _ _ hi

theorem loop_heap_frame (mt : String) (model : List ℚ → ℚ) :
    ∀ (n : ℕ) (h : Heap) (cur i : ℕ), i < h.length →
      hget (loop_heap mt model n h cur).2 i = hget h i := by
  intro n
  induction n with
  | zero => intro h cur i hi; rfl
  | succ m ih =>
      intro h cur i hi
      have hs := step_heap_spec mt model h cur
      show hget (loop_heap mt model m (step_heap mt model h cur).2.1
        (step_heap mt model h cur).2.2).2 i = hget h i
      rw [ih _ _ i (by omega), hs.2.2.2.2 i hi]

theorem loop_heap_preds (mt : String) (model : List ℚ → ℚ) :
    ∀ (n : ℕ) (h : Heap) (cur : ℕ),
      (loop_heap mt model n h cur).1 = predict_loop mt model n (hget h cur) := by
  intro n
  induction n with
  | zero => intro h cur; rfl
  | succ m ih =>
      intro h cur
      have hs := step_heap_spec mt model h cur
      show (step_heap mt model h cur).1 ::
          (loop_heap mt model m (step_heap mt model h cur).2.1
            (step_heap mt model h cur).2.2).1 = _
      rw [hs.1, ih, hs.2.1]
      simp only [predict_loop, predict_step_eq]

/-- C10: `predict_future`, run on an explicit heap of numpy arrays, leaves
the caller's seed-window cell unchanged for every architecture tag -- the
rolling-window mutation happens only on the internal copy made by
`last_seq.copy()` and on the fresh arrays allocated by `np.roll`/`np.vstack`
-- and returns the same predictions as the pure `predict_future`. -/
theorem predict_future_heap_frame (mt : String) (model : List ℚ → ℚ) (h : Heap)
    (seedIdx steps : ℕ) (sc : MinMaxScaler) (hs : seedIdx < h.length) :
    hget (predict_future_heap mt model h seedIdx steps sc).2 seedIdx = hget h seedIdx
    ∧ (predict_future_heap mt model h seedIdx steps sc).1 =
        predict_future mt model (hget h seedIdx) steps sc := by
  constructor
  · show hget (loop_heap mt model steps (h ++ [hget h seedIdx]) h.length).2 seedIdx = _
    rw [loop_heap_frame mt model steps _ _ seedIdx (by simp; omega),
      hget_append_lt _ _ _ hs]
  · show (loop_heap mt model steps (h ++ [hget h seedIdx]) h.length).1.map
        sc.inverse_transform = _
    rw [loop_heap_preds, hget_append_length]
    rfl

theorem predict_future_heap_frame_witness :
    (0 < ([[(1 : ℚ), 2]] : Heap).length)
    ∧ hget (predict_future_heap "MLP" (fun _ => 0) [[(1 : ℚ), 2]] 0 2 ⟨1, 0⟩).2 0 =
        hget [[(1 : ℚ), 2]] 0
    ∧ (predict_future_heap "MLP" (fun _ => 0) [[(1 : ℚ), 2]] 0 2 ⟨1, 0⟩).1 =
        predict_future "MLP" (fun _ => 0) (hget [[(1 : ℚ), 2]] 0) 2 ⟨1, 0⟩ := by
  have h := predict_future_heap_frame "MLP" (fun _ => 0) [[(1 : ℚ), 2]] 0 2 ⟨1, 0⟩
    (by decide)
  exact ⟨by decide, h.1, h.2⟩

theorem zip_self_sq_sum (l : List ℚ) :
    ((l.zip l).map (fun p => (p.1 - p.2) ^ 2)).sum = 0 := by
  induction l with
  | nil => rfl
  | cons a as ih => simp [ih]

theorem zip_self_abs_sum (l : List ℚ) :
    ((l.zip l).map (fun p => |p.1 - p.2|)).sum = 0 := by
  induction l with
  | nil => rfl
  | cons a as ih => simp [ih]

theorem evaluate_core_eq (model : List ℚ → ℚ) (x : List (List ℚ)) (y : List ℚ)
    (hx : x ≠ []) (hy : y.length = x.length) :
    evaluate_core model x y =
      some (((y.zip (x.map model)).map (fun p => (p.1 - p.2) ^ 2)).sum / (y.length : ℚ),
        ((y.zip (x.map model)).map (fun p => |p.1 - p.2|)).sum / (y.length : ℚ)) := by
  unfold evaluate_core
  rw [if_neg (by simp [hx, hy])]

/-- C8: `evaluate_model` computes its metrics entirely in the scaled domain
with no rescaling to price units -- `mse` is the mean squared elementwise
error between the given scaled targets and the model's batched predictions,
`mae` the mean absolute elementwise error, `rmse = sqrt(mse)` -- and on a
window set whose targets equal the model's own predictions all three metrics
are exactly 0. -/
theorem evaluate_scaled_domain (model : List ℚ → ℚ) (x : List (List ℚ)) (y : List ℚ)
    (hx : x ≠ []) (hy : y.length = x.length) :
    evaluate_model model x y =
      some (((y.zip (x.map model)).map (fun p => (p.1 - p.2) ^ 2)).sum / (y.length : ℚ),
        Real.sqrt (((((y.zip (x.map model)).map (fun p => (p.1 - p.2) ^ 2)).sum / (y.length : ℚ) : ℚ) : ℝ)),
        ((y.zip (x.map model)).map (fun p => |p.1 - p.2|)).sum / (y.length : ℚ))
    ∧ (y = x.map model → evaluate_model model x y = some (0, 0, 0)) := by
  have hcore := evaluate_core_eq model x y hx hy
  constructor
  · unfold evaluate_model
    rw [hcore]
    rfl
  · intro heq
    subst heq
    unfold evaluate_model
    rw [hcore]
    have h1 := zip_self_sq_sum (x.map model)
    have h2 := zip_self_abs_sum (x.map model)
    simp [h1, h2]

theorem evaluate_scaled_domain_witness :
    (([[(1 : ℚ), 2]] : List (List ℚ)) ≠ []
      ∧ ([(1 : ℚ)]).length = ([[(1 : ℚ), 2]] : List (List ℚ)).length)
    ∧ evaluate_model (fun l => l.headD 0) [[(1 : ℚ), 2]] [(1 : ℚ)] = some (0, 0, 0) := by
  refine ⟨⟨by decide, by decide⟩, ?_⟩
  exact (evaluate_scaled_domain (fun l => l.headD 0) [[(1 : ℚ), 2]] [(1 : ℚ)]
    (by decide) (by decide)).2 rfl

theorem prepare_data_some_scaler (data : List ℚ) (w : ℕ) (s : MinMaxScaler)
    (h : data ≠ []) :
    prepare_data data w (some s) =
      some ((make_xy (data.map s.transform) w).1,
        (make_xy (data.map s.transform) w).2, s) := by
  simp [prepare_data, h]

theorem train_model_shape (store : Store) (coin mt interval : String) (neurons : ℕ)
    (d lr : ℚ) (fetched : Option (List ℚ)) (fitOk dumpOk saveOk : Bool) :
    train_model store coin mt interval neurons d lr fetched fitOk dumpOk saveOk = (none, store)
    ∨ (saveOk = false ∧ ∃ sc,
        train_model store coin mt interval neurons d lr fetched fitOk dumpOk saveOk =
          (none, dumpScaler store (coin ++ "_" ++ interval ++ "_scaler.save") sc))
    ∨ (∃ r sc,
        train_model store coin mt interval neurons d lr fetched fitOk dumpOk saveOk =
          (some r,
            saveModel (dumpScaler store (coin ++ "_" ++ interval ++ "_scaler.save") sc)
              (coin ++ "_" ++ mt ++ "_" ++ interval ++ ".keras"))
        ∧ r.scaler = sc
        ∧ prepare_data fetched.iget 60
            (lookupScaler store (coin ++ "_" ++ interval ++ "_scaler.save")) =
            some (r.x, r.y, sc)) := by
  unfold train_model
  cases fetched with
  | none => exact Or.inl rfl
  | some df =>
      by_cases hdf : df = []
      · dsimp only
        rw [if_pos hdf]
        exact Or.inl rfl
      · dsimp only
        rw [if_neg hdf]
        cases hp : prepare_data df 60
            (lookupScaler store (coin ++ "_" ++ interval ++ "_scaler.save")) with
        | none => exact Or.inl rfl
        | some t =>
            obtain ⟨x, y, sc⟩ := t
            dsimp only
            cases hb : build_model mt (train_input_shape mt (x.headD []).length)
                neurons d lr with
            | error e => exact Or.inl rfl
            | ok m =>
                cases fitOk with
                | false => exact Or.inl rfl
                | true =>
                    cases dumpOk with
                    | false => exact Or.inl rfl
                    | true =>
                        cases saveOk with
                        | false => exact Or.inr (Or.inl ⟨rfl, sc, rfl⟩)
                        | true =>
                            exact Or.inr (Or.inr ⟨⟨x, y, sc, _, _⟩, sc, rfl, rfl, rfl⟩)

/-- C6 (counterexample): with an empty artifact store, a valid tag, fetched
data and a successful fit and scaler dump, a failure at the `model.save`
step makes `train_model` return a failure -- yet the freshly dumped scaler
file remains in the store, so the store is not unchanged on error. -/
theorem train_partial_artifact_cex :
    (train_model ⟨[], []⟩ "Bitcoin (BTC)" "LSTM" "Daily" 50 (1 / 5) (1 / 1000)
        (some (mkData 80)) true true false).1 = none
    ∧ (train_model ⟨[], []⟩ "Bitcoin (BTC)" "LSTM" "Daily" 50 (1 / 5) (1 / 1000)
        (some (mkData 80)) true true false).2 ≠ (⟨[], []⟩ : Store)
    ∧ (train_model ⟨[], []⟩ "Bitcoin (BTC)" "LSTM" "Daily" 50 (1 / 5) (1 / 1000)
        (some (mkData 80)) true true false).2.scalers ≠ [] := by
  refine ⟨rfl, ?_, ?_⟩ <;> decide

/-- C6 (amended): a failed `train_model` call never persists a model file,
and any failure up to and including the scaler dump leaves the store fully
unchanged; but when the failure happens at the `model.save` step -- after
`joblib.dump` has already run -- the scaler file for the requested key is
persisted despite the failed call, so only this one stage violates the
no-partial-artifact rule. -/
theorem train_no_partial_artifacts_amended (store : Store) (coin mt interval : String)
    (neurons : ℕ) (d lr : ℚ) (fetched : Option (List ℚ)) (fitOk dumpOk saveOk : Bool)
    (h : (train_model store coin mt interval neurons d lr fetched fitOk dumpOk saveOk).1 = none) :
    (train_model store coin mt interval neurons d lr fetched fitOk dumpOk saveOk).2.models
        = store.models
    ∧ ((train_model store coin mt interval neurons d lr fetched fitOk dumpOk saveOk).2 = store
       ∨ (saveOk = false ∧ ∃ sc,
           (train_model store coin mt interval neurons d lr fetched fitOk dumpOk saveOk).2 =
             dumpScaler store (coin ++ "_" ++ interval ++ "_scaler.save") sc)) := by
  rcases train_model_shape store coin mt interval neurons d lr fetched fitOk dumpOk saveOk with
    heq | ⟨hsave, sc, heq⟩ | ⟨r, sc, heq, _, _⟩
  · rw [heq]
    exact ⟨rfl, Or.inl rfl⟩
  · rw [heq]
    exact ⟨rfl, Or.inr ⟨hsave, sc, rfl⟩⟩
  · rw [heq] at h
    exact absurd h (by simp)

theorem train_no_partial_artifacts_amended_witness :
    (train_model ⟨[], []⟩ "Bitcoin (BTC)" "MLP" "Daily" 50 (1 / 5) (1 / 1000)
        none true true true).1 = none
    ∧ (train_model ⟨[], []⟩ "Bitcoin (BTC)" "MLP" "Daily" 50 (1 / 5) (1 / 1000)
          none true true true).2.models = (⟨[], []⟩ : Store).models
    ∧ ((train_model ⟨[], []⟩ "Bitcoin (BTC)" "MLP" "Daily" 50 (1 / 5) (1 / 1000)
          none true true true).2 = (⟨[], []⟩ : Store)
       ∨ (true = false ∧ ∃ sc,
           (train_model ⟨[], []⟩ "Bitcoin (BTC)" "MLP" "Daily" 50 (1 / 5) (1 / 1000)
              none true true true).2 =
             dumpScaler ⟨[], []⟩ ("Bitcoin (BTC)" ++ "_" ++ "Daily" ++ "_scaler.save") sc)) := by
  refine ⟨rfl, ?_⟩
  exact train_no_partial_artifacts_amended ⟨[], []⟩ "Bitcoin (BTC)" "MLP" "Daily"
    50 (1 / 5) (1 / 1000) none true true true rfl

/-- C9: data preparation fits a fresh min-max scaler from the series when no
scaler is supplied and uses a supplied scaler unchanged (scaling with its
remembered parameters and returning the very same scaler); and a successful
`train_model` run uses -- and persists in its result -- the scaler loaded
from the store for (instrument, interval) when one exists, fitting a new one
from the fetched series only otherwise. -/
theorem scaler_fit_or_load (data : List ℚ) (w : ℕ) (s : MinMaxScaler)
    (store : Store) (coin mt interval : String) (neurons : ℕ) (d lr : ℚ)
    (fitOk dumpOk saveOk : Bool) (hd : data ≠ []) :
    prepare_data data w none =
      some ((make_xy (data.map (fitScaler data).transform) w).1,
        (make_xy (data.map (fitScaler data).transform) w).2, fitScaler data)
    ∧ prepare_data data w (some s) =
        some ((make_xy (data.map s.transform) w).1,
          (make_xy (data.map s.transform) w).2, s)
    ∧ (∀ r store2,
        train_model store coin mt interval neurons d lr (some data) fitOk dumpOk saveOk =
          (some r, store2) →
        r.scaler =
          (lookupScaler store (coin ++ "_" ++ interval ++ "_scaler.save")).getD
            (fitScaler data)) := by
  refine ⟨prepare_data_some_of_ne_nil data w none hd,
    prepare_data_some_scaler data w s hd, ?_⟩
  intro r store2 htr
  rcases train_model_shape store coin mt interval neurons d lr (some data)
      fitOk dumpOk saveOk with
    heq | ⟨_, sc, heq⟩ | ⟨r2, sc, heq, hsc, hprep⟩
  · rw [htr] at heq
    exact absurd (congrArg Prod.fst heq) (by simp)
  · rw [htr] at heq
    exact absurd (congrArg Prod.fst heq) (by simp)
  · rw [htr] at heq
    have hr2 : r = r2 := by
      have := congrArg Prod.fst heq
      simpa using this
    rw [prepare_data_some_of_ne_nil data 60 _ hd] at hprep
    have hscaler := congrArg (fun t => (Option.map (fun p => p.2.2) t)) hprep
    simp only [Option.map_some'] at hscaler
    rw [hr2, hsc]
    exact (Option.some.injEq _ _).mp hscaler.symm

theorem scaler_fit_or_load_witness :
    ([(3 : ℚ), 8] ≠ [])
    ∧ prepare_data [(3 : ℚ), 8] 1 (some ⟨1, 0⟩) =
        some ((make_xy ([(3 : ℚ), 8].map (MinMaxScaler.transform ⟨1, 0⟩)) 1).1,
          (make_xy ([(3 : ℚ), 8].map (MinMaxScaler.transform ⟨1, 0⟩)) 1).2, ⟨1, 0⟩) :=
  ⟨by decide, (scaler_fit_or_load [(3 : ℚ), 8] 1 ⟨1, 0⟩ ⟨[], []⟩ "c" "MLP" "Daily"
    50 (1 / 5) (1 / 1000) true true true (by decide)).2.1⟩

theorem predict_future_length (mt : String) (model : List ℚ → ℚ) (w : List ℚ)
    (steps : ℕ) (sc : MinMaxScaler) :
    (predict_future mt model w steps sc).length = steps := by
  unfold predict_future
  rw [List.length_map, predict_loop_eq, scaledRollout_length]

/-- C4 (counterexample): on the non-empty historical series with the single
row (timestamp 0, price 5) and horizon 1 on interval "1d", the prediction
pipeline produces no forecast entries at all: the window set is empty, the
`last_seq = x[-1]` access raises an IndexError and the run aborts with an
error instead of returning one dated entry. -/
theorem forecast_nonempty_series_cex :
    ([((0 : ℤ), (5 : ℚ))] ≠ [])
    ∧ run_prediction "LSTM" (fun _ => 0) ⟨1, 0⟩ [((0 : ℤ), (5 : ℚ))] 1 "1d" =
        Except.error "IndexError: index -1 is out of bounds" := by
  exact ⟨by decide, rfl⟩

/-- C4 (amended): for every horizon `H` between 1 and 100 and every
historical series with more rows than the window size 60 (not merely
non-empty: shorter non-empty series abort with an IndexError), the forecast
result has exactly `H` entries whose timestamps are
`lastHistoricalDate + 1, + 2, ..., + H` interval-steps -- on interval "1d"
the step is one day (86400 s) -- hence strictly increasing and starting one
step after the last historical timestamp. -/
theorem forecast_length_monotone_dates (mt : String) (model : List ℚ → ℚ)
    (sc : MinMaxScaler) (df : List (ℤ × ℚ)) (H : ℕ)
    (h1 : 1 ≤ H) (h100 : H ≤ 100) (hlen : 60 < df.length) :
    ∃ entries, run_prediction mt model sc df H "1d" = Except.ok entries
      ∧ entries.length = H
      ∧ (∀ i, i < H → (entries.getD i (0, 0)).1 =
          (df.map Prod.fst).getLastD 0 + 86400 * ((i : ℤ) + 1))
      ∧ List.Pairwise (fun a b : ℤ × ℚ => a.1 < b.1) entries := by
  have hne : df ≠ [] := by
    intro hc
    rw [hc] at hlen
    exact absurd hlen (by decide)
  have hsne : df.map Prod.snd ≠ [] := by
    simp [List.map_eq_nil_iff, hne]
  unfold run_prediction
  rw [if_neg hne, prepare_data_some_scaler (df.map Prod.snd) 60 sc hsne]
  dsimp only
  set scaled := (df.map Prod.snd).map sc.transform with hscaled
  have hxlen : (make_xy scaled 60).1.length = df.length - 60 := by
    unfold make_xy
    simp [hscaled]
  have hxne : (make_xy scaled 60).1 ≠ [] := by
    intro hc
    rw [hc] at hxlen
    simp at hxlen
    omega
  rw [List.getLast?_eq_getLast _ hxne]
  set lseq := (make_xy scaled 60).1.getLast hxne
  set lastd := (df.map Prod.fst).getLastD 0 with hlastd
  have hdelta : delta_map "1d" = 86400 := rfl
  rw [hdelta]
  set preds := predict_future mt model lseq H sc with hpreds
  have hplen : preds.length = H := predict_future_length mt model lseq H sc
  have hflen : (future_dates lastd 86400 H).length = H := by
    unfold future_dates
    rw [List.length_map, List.length_range]
  refine ⟨(future_dates lastd 86400 H).zip preds, rfl, ?_, ?_, ?_⟩
  · rw [List.length_zip, hflen, hplen]
    exact min_self H
  · intro i hi
    have hfst : ((future_dates lastd 86400 H).zip preds).map Prod.fst =
        future_dates lastd 86400 H :=
      List.map_fst_zip _ _ (by rw [hflen, hplen])
    have h0 := List.getD_map ((future_dates lastd 86400 H).zip preds)
      ((0 : ℤ), (0 : ℚ)) Prod.fst (n := i)
    rw [hfst] at h0
    rw [← h0]
    unfold future_dates
    rw [list_getD_range_map (fun k => lastd + 86400 * ((k : ℤ) + 1)) H i hi]
  · have hfst : ((future_dates lastd 86400 H).zip preds).map Prod.fst =
        future_dates lastd 86400 H :=
      List.map_fst_zip _ _ (by rw [hflen, hplen])
    have hpair : List.Pairwise (fun a b : ℤ => a < b) (future_dates lastd 86400 H) := by
      unfold future_dates
      refine List.Pairwise.map _ ?_ (List.pairwise_lt_range H)
      intro a b hab
      have : (a : ℤ) < (b : ℤ) := by exact_mod_cast hab
      omega
    rw [← hfst] at hpair
    exact List.pairwise_map.mp hpair

theorem forecast_length_monotone_dates_witness :
    (1 ≤ 1 ∧ 1 ≤ 100 ∧ 60 < (mkFrame 61).length)
    ∧ ∃ entries,
        run_prediction "MLP" (fun _ => 1 / 2) ⟨1, 0⟩ (mkFrame 61) 1 "1d" =
          Except.ok entries
        ∧ entries.length = 1
        ∧ (∀ i, i < 1 → (entries.getD i (0, 0)).1 =
            ((mkFrame 61).map Prod.fst).getLastD 0 + 86400 * ((i : ℤ) + 1))
        ∧ List.Pairwise (fun a b : ℤ × ℚ => a.1 < b.1) entries :=
  ⟨⟨by decide, by decide, by decide⟩,
    forecast_length_monotone_dates "MLP" (fun _ => 1 / 2) ⟨1, 0⟩ (mkFrame 61) 1
      (by decide) (by decide) (by decide)⟩
